import Mathlib

/-!
Shallow embedding of the flash-eeprom wear-leveling key/value storage
engine (src/lib.rs, byte-oriented variant).  A page is a list of byte
values, a store is the list of pages handed out by the EEPROM trait.
Rust panics (failed asserts, out-of-bounds slices and indexing) are
modelled as Except.error (); the unbounded Rust loops carry explicit
fuel and return none on fuel exhaustion, so every some result reflects
an actual terminating run of the source code.
-/

namespace FlashEEPROM

/-- A store is the page array exposed by the EEPROM trait: each page is
a list of byte values. -/
abbrev Store := List (List Nat)

/-- One decoded entry header: an address byte plus a 32-bit
little-endian size, mirroring struct Variable. -/
structure Variable where
  address : Nat
  size : Nat
deriving DecidableEq

/-- Little-endian byte decomposition of a u32 value, as produced by
u32::to_le_bytes. -/
def le32Bytes (n : Nat) : List Nat :=
  [n % 256, n / 256 % 256, n / 65536 % 256, n / 16777216 % 256]

/-- LittleEndian::read_u32 over four bytes. -/
def readU32LE (b0 b1 b2 b3 : Nat) : Nat :=
  b0 + 256 * b1 + 65536 * b2 + 16777216 * b3

/-- Into<[u8; 5]> for Variable: the address byte followed by the size
in little-endian byte order. -/
def variableToBytes (v : Variable) : List Nat :=
  v.address :: le32Bytes v.size

/-- Into<Variable> for &[u8]: asserts that the slice length is exactly
5, then reads the address byte and the little-endian size. -/
def bytesToVariable (l : List Nat) : Except Unit Variable :=
  if l.length = 5 then
    .ok ⟨l.headD 0, readU32LE (l.getD 1 0) (l.getD 2 0) (l.getD 3 0) (l.getD 4 0)⟩
  else .error ()

/-- Rust slice l[i..j]: panics unless i ≤ j ≤ l.length. -/
def sliceRange (l : List Nat) (i j : Nat) : Except Unit (List Nat) :=
  if i ≤ j ∧ j ≤ l.length then .ok ((l.take j).drop i) else .error ()

/-- copy_from_slice into l[i..i+src.length]: panics if the range leaves
the list. -/
def setRange (l : List Nat) (i : Nat) (src : List Nat) : Except Unit (List Nat) :=
  if i + src.length ≤ l.length then
    .ok (l.take i ++ src ++ l.drop (i + src.length))
  else .error ()

/-- Rust read indexing l[i]: panics when out of bounds. -/
def getByte (l : List Nat) (i : Nat) : Except Unit Nat :=
  match l.get? i with
  | some b => .ok b
  | none => .error ()

/-- Rust indexed assignment l[i] = b: panics when out of bounds. -/
def setByte (l : List Nat) (i : Nat) (b : Nat) : Except Unit (List Nat) :=
  if i < l.length then .ok (l.set i b) else .error ()

/-- Decode the entry header at offset i of a page, i.e.
page[i..i+5].into::<Variable>(). -/
def decodeAt (page : List Nat) (i : Nat) : Except Unit Variable :=
  match sliceRange page i (i + 5) with
  | .ok s => bytesToVariable s
  | .error e => .error e

/-- Sequencing for fallible fueled computations: none is fuel
exhaustion, some (error ()) is a panic of the source program. -/
def obind {α β : Type} (x : Option (Except Unit α))
    (f : α → Option (Except Unit β)) : Option (Except Unit β) :=
  match x with
  | some (.ok a) => f a
  | some (.error e) => some (.error e)
  | none => none

/-- Lift an Except computation into the fueled monad. -/
def olift {α : Type} (x : Except Unit α) : Option (Except Unit α) := some x

/-- Return a pure value in the fueled monad. -/
def opure {α : Type} (a : α) : Option (Except Unit α) := some (.ok a)

/-- A panic of the source program. -/
def ofail {α : Type} : Option (Except Unit α) := some (.error ())

@[simp] lemma obind_ok {α β : Type} (a : α) (f : α → Option (Except Unit β)) :
    obind (some (.ok a)) f = f a := rfl

@[simp] lemma obind_error {α β : Type} (e : Unit) (f : α → Option (Except Unit β)) :
    obind (some (.error e)) f = some (.error e) := rfl

@[simp] lemma obind_none {α β : Type} (f : α → Option (Except Unit β)) :
    obind none f = none := rfl

@[simp] lemma olift_def {α : Type} (x : Except Unit α) : olift x = some x := rfl

@[simp] lemma opure_def {α : Type} (a : α) : opure a = some (.ok a) := rfl

@[simp] lemma ofail_def {α : Type} : (ofail : Option (Except Unit α)) = some (.error ()) := rfl

/-- Active-page discovery loop, written identically in read_variable,
write_variable and run_garbage_collection: page headers are scanned in
index order; 255 (Erased) is skipped, 1 (Active) stops the search with
that index, and any other header value panics. -/
def findActiveAux : List (List Nat) → Nat → Except Unit (Option Nat)
  | [], _ => .ok none
  | [] :: _, _ => .error ()
  | (h :: _) :: rest, i =>
    if h = 255 then findActiveAux rest (i + 1)
    else if h = 1 then .ok (some i)
    else .error ()

/-- Discovery of the active page over the whole store. -/
def findActivePage (pages : Store) : Except Unit (Option Nat) :=
  findActiveAux pages 0

/-- reset_page per the trait contract: every storage unit of the page
becomes 255, the erased sentinel. -/
def erasePage (p : List Nat) : List Nat := List.replicate p.length 255

/-- First-use initialization in write_variable and
run_garbage_collection: erase every page, then force header of page 0
to Active. -/
def initPages (pages : Store) : Except Unit Store :=
  match pages.map erasePage with
  | [] => .error ()
  | p0 :: rest =>
    match setByte p0 0 1 with
    | .ok q0 => .ok (q0 :: rest)
    | .error e => .error e

/-- Fetch the page at an index, panicking when out of bounds. -/
def getPage (s : Store) (i : Nat) : Except Unit (List Nat) :=
  match s.get? i with
  | some p => .ok p
  | none => .error ()

/-- Resolution of the active page shared by write_variable and
run_garbage_collection: use the discovered index, or run first-use
initialization and use page 0. -/
def resolveActive (store : Store) (maybeActive : Option Nat) :
    Option (Except Unit (Store × Nat)) :=
  match maybeActive with
  | some n => opure (store, n)
  | none => obind (olift (initPages store)) fun s => opure (s, 0)

@[simp] lemma resolveActive_some (store : Store) (n : Nat) :
    resolveActive store (some n) = opure (store, n) := rfl

@[simp] lemma resolveActive_none (store : Store) :
    resolveActive store none =
      obind (olift (initPages store)) fun s => opure (s, 0) := rfl

/-- Round-robin destination selection of the garbage collector:
active index + 1, wrapping to 0 at the page count. -/
def nextPageIndex (n activeIdx : Nat) : Nat :=
  if activeIdx + 1 = n then 0 else activeIdx + 1

/-- The copy loop of run_garbage_collection, translated verbatim: the
sentinel stops the loop, a tombstone advances the source offset only,
and the live branch copies header and payload to the destination and
advances only the destination offset, exactly as the source code
does (the source offset is left unchanged there). -/
def gcCopy (fuel : Nat) (src dst : List Nat) (si di : Nat) :
    Option (Except Unit (List Nat)) :=
  match fuel with
  | 0 => none
  | f + 1 =>
    match decodeAt src si with
    | .error _ => some (.error ())
    | .ok v =>
      if v.address = 255 then some (.ok dst)
      else if v.address = 0 then gcCopy f src dst (si + 5 + v.size) di
      else
        match sliceRange src (si + 5) (si + 5 + v.size) with
        | .error _ => some (.error ())
        | .ok data =>
          match sliceRange src si (si + 5) with
          | .error _ => some (.error ())
          | .ok header =>
            match setRange dst di header with
            | .error _ => some (.error ())
            | .ok dst1 =>
              match setRange dst1 (di + 5) data with
              | .error _ => some (.error ())
              | .ok dst2 => gcCopy f src dst2 si (di + 5 + v.size)

/-- Body of run_garbage_collection after the active page is resolved:
select the round-robin destination, assert it is distinct (get_two_mut)
and Erased, mark the source GcRunning, run the copy loop, erase the
source page and promote the destination to Active, returning its
index. -/
def gcFinish (s1 : Store) (activeIdx : Nat) : Option (Except Unit (Nat × Store)) :=
  obind (if activeIdx = nextPageIndex s1.length activeIdx then ofail else opure ()) fun _ =>
  obind (olift (getPage s1 activeIdx)) fun activePage =>
  obind (olift (getPage s1 (nextPageIndex s1.length activeIdx))) fun nextPage =>
  obind (olift (getByte nextPage 0)) fun hdr =>
  obind (if hdr = 255 then opure () else ofail) fun _ =>
  obind (olift (setByte activePage 0 0)) fun activePage1 =>
  obind (gcCopy (activePage1.length + nextPage.length + 8) activePage1 nextPage 1 1) fun nextPage1 =>
  obind (olift (getPage (((s1.set activeIdx activePage1).set
      (nextPageIndex s1.length activeIdx) nextPage1).set activeIdx
      (erasePage activePage1)) (nextPageIndex s1.length activeIdx))) fun np =>
  obind (olift (setByte np 0 1)) fun np1 =>
  opure (nextPageIndex s1.length activeIdx,
    (((s1.set activeIdx activePage1).set (nextPageIndex s1.length activeIdx) nextPage1).set
      activeIdx (erasePage activePage1)).set (nextPageIndex s1.length activeIdx) np1)

/-- run_garbage_collection: resolve (or initialize) the active page,
then compact it into the next page in round-robin order. -/
def run_garbage_collection (store : Store) : Option (Except Unit (Nat × Store)) :=
  obind (olift (findActivePage store)) fun maybeActive =>
  obind (resolveActive store maybeActive) fun sa =>
  gcFinish sa.1 sa.2

/-- The scan loop of write_variable.  Each iteration decodes the entry
header at the scan offset first, then checks whether a new header plus
the payload still fits before the page end (running the garbage
collector on the first failure, panicking on the second), and then
dispatches on the decoded header: the decoded variable is NOT refreshed
after a collection, exactly as in the source.  gcCount is a ghost
counter of collector invocations. -/
def writeLoop (fuel : Nat) (store : Store) (pageIdx index : Nat) (gcRun : Bool)
    (gcCount : Nat) (address : Nat) (data : List Nat) :
    Option (Except Unit (Store × Nat)) :=
  match fuel with
  | 0 => none
  | f + 1 =>
    obind (olift (getPage store pageIdx)) fun page =>
    obind (olift (decodeAt page index)) fun v =>
    obind (if page.length < index + 5 + data.length then
             (if gcRun then ofail
              else obind (run_garbage_collection store) fun r =>
                opure (r.2, r.1, 1, true, gcCount + 1))
           else opure (store, pageIdx, index, gcRun, gcCount)) fun st =>
    match st with
    | (store1, pIdx1, idx1, gcRun1, cnt1) =>
      obind (olift (getPage store1 pIdx1)) fun page1 =>
      if v.address = 255 then
        obind (olift (setByte page1 idx1 address)) fun pa =>
        obind (olift (setRange pa (idx1 + 1) (le32Bytes data.length))) fun pb =>
        obind (olift (setRange pb (idx1 + 5) data)) fun pc =>
        opure (store1.set pIdx1 pc, cnt1)
      else
        obind (olift (getByte page1 idx1)) fun b =>
        if b = address then
          obind (olift (setByte page1 idx1 0)) fun pt =>
          writeLoop f (store1.set pIdx1 pt) pIdx1 (idx1 + 5 + v.size) gcRun1 cnt1 address data
        else
          writeLoop f store1 pIdx1 (idx1 + 5 + v.size) gcRun1 cnt1 address data

/-- Fuel bound for the write scan: generous with respect to the fact
that every iteration either finishes, runs the collector once, or
advances the offset by at least five units. -/
def writeFuel (store : Store) : Nat := 2 * (store.map List.length).sum + 32

/-- write_variable together with the ghost collector-invocation count:
reserved addresses panic, then the active page is resolved (or
first-use initialized) and the scan loop runs from offset 1. -/
def write_variable_aux (store : Store) (address : Nat) (data : List Nat) :
    Option (Except Unit (Store × Nat)) :=
  if address = 0 ∨ address = 255 then ofail
  else
    obind (olift (findActivePage store)) fun maybeActive =>
    obind (resolveActive store maybeActive) fun sa =>
    writeLoop (writeFuel sa.1) sa.1 sa.2 1 false 0 address data

/-- write_variable as exposed by the trait: the resulting store. -/
def write_variable (store : Store) (address : Nat) (data : List Nat) :
    Option (Except Unit Store) :=
  obind (write_variable_aux store address data) fun r => opure r.1

/-- The scan loop of read_variable, translated verbatim: the entry
header at the offset is decoded first (an out-of-bounds slice panics),
then the dead bounds check, the sentinel check, the address match
returning the payload slice, and otherwise the advance. -/
def readScan (fuel : Nat) (page : List Nat) (address index : Nat) :
    Option (Except Unit (Option (List Nat))) :=
  match fuel with
  | 0 => none
  | f + 1 =>
    obind (olift (decodeAt page index)) fun v =>
    if page.length ≤ index then opure none
    else if v.address = 255 then opure none
    else if v.address = address then
      obind (olift (sliceRange page (index + 5) (index + 5 + v.size))) fun d =>
      opure (some d)
    else readScan f page address (index + 5 + v.size)

/-- read_variable: reserved addresses panic, a store with no Active
page reads as absent, and otherwise the active page is scanned from
offset 1. -/
def read_variable (store : Store) (address : Nat) :
    Option (Except Unit (Option (List Nat))) :=
  if address = 0 ∨ address = 255 then ofail
  else
    obind (olift (findActivePage store)) fun maybeActive =>
    match maybeActive with
    | none => opure none
    | some i =>
      obind (olift (getPage store i)) fun page =>
      readScan (page.length + 8) page address 1

/-! ### Helper lemmas -/

lemma obind_ok_inv {α β : Type} {x : Option (Except Unit α)}
    {f : α → Option (Except Unit β)} {b : β}
    (h : obind x f = some (.ok b)) :
    ∃ a, x = some (.ok a) ∧ f a = some (.ok b) := by
  match x with
  | some (.ok a) => exact ⟨a, rfl, h⟩
  | some (.error e) => simp [obind] at h
  | none => simp [obind] at h

lemma findActiveAux_lt (l : List (List Nat)) :
    ∀ (k i : Nat), findActiveAux l k = .ok (some i) → k ≤ i ∧ i < k + l.length := by
  induction l with
  | nil => intro k i h; simp [findActiveAux] at h
  | cons p rest ih =>
    intro k i h
    cases p with
    | nil => simp [findActiveAux] at h
    | cons x xs =>
      unfold findActiveAux at h
      by_cases h255 : x = 255
      · rw [if_pos h255] at h
        have hr := ih (k + 1) i h
        simp only [List.length_cons]
        omega
      · rw [if_neg h255] at h
        by_cases h1 : x = 1
        · rw [if_pos h1] at h
          simp only [Except.ok.injEq, Option.some.injEq] at h
          subst h
          simp only [List.length_cons]
          omega
        · rw [if_neg h1] at h
          simp at h

lemma findActivePage_lt {store : Store} {i : Nat}
    (h : findActivePage store = .ok (some i)) : i < store.length := by
  have := findActiveAux_lt store 0 i h
  omega

lemma findActiveAux_invalid (l : List (List Nat)) :
    ∀ (k i : Nat) (p : List Nat) (hd : Nat),
      l.get? i = some p → p.get? 0 = some hd → hd ≠ 255 → hd ≠ 1 →
      (∀ j, j < i → ∃ q, l.get? j = some q ∧ q.get? 0 = some 255) →
      findActiveAux l k = .error () := by
  induction l with
  | nil => intro k i p hd hp _ _ _ _; simp at hp
  | cons p0 rest ih =>
    intro k i p hd hp hhd h255 h1 hbefore
    cases i with
    | zero =>
      simp only [List.get?_cons_zero, Option.some.injEq] at hp
      subst hp
      cases p0 with
      | nil => simp at hhd
      | cons x xs =>
        simp only [List.get?_cons_zero, Option.some.injEq] at hhd
        subst hhd
        simp [findActiveAux, h255, h1]
    | succ i0 =>
      obtain ⟨q, hq, hq0⟩ := hbefore 0 (Nat.succ_pos i0)
      simp only [List.get?_cons_zero, Option.some.injEq] at hq
      subst hq
      cases p0 with
      | nil => simp at hq0
      | cons x xs =>
        simp only [List.get?_cons_zero, Option.some.injEq] at hq0
        subst hq0
        have hrec := ih (k + 1) i0 p hd (by simpa using hp) hhd h255 h1
          (fun j hj => by
            have hb := hbefore (j + 1) (by omega)
            simpa using hb)
        simp [findActiveAux, hrec]

lemma setByte_ok {l l1 : List Nat} {i b : Nat} (h : setByte l i b = .ok l1) :
    i < l.length ∧ l1 = l.set i b := by
  unfold setByte at h
  split at h
  · simp only [Except.ok.injEq] at h
    exact ⟨by assumption, h.symm⟩
  · simp at h

lemma getPage_ok {s : Store} {i : Nat} {p : List Nat} (h : getPage s i = .ok p) :
    s.get? i = some p := by
  unfold getPage at h
  cases hh : s.get? i <;> rw [hh] at h <;> simp_all

lemma get?_replicate_255 {n : Nat} (h : 0 < n) :
    (List.replicate n (255 : Nat)).get? 0 = some 255 := by
  cases n with
  | zero => omega
  | succ m => rfl

lemma get?_set_head {l : List Nat} {b : Nat} (h : 0 < l.length) :
    (l.set 0 b).get? 0 = some b := by
  cases l with
  | nil => simp at h
  | cons x xs => rfl

/-! ### Claim theorems -/

/-- Claim C10: the entry-header codec round-trips: encoding a Variable
with any address and any size below 2^32 to its 5-byte form (address
byte followed by the size in little-endian order) and decoding that
slice yields the same address and size, and decoding any slice whose
length is not exactly 5 is fatal. -/
theorem c10_variable_codec_roundtrip :
    (∀ (a s : Nat), s < 4294967296 →
      bytesToVariable (variableToBytes ⟨a, s⟩) = .ok ⟨a, s⟩) ∧
    (∀ l : List Nat, l.length ≠ 5 → bytesToVariable l = .error ()) := by
  constructor
  · intro a s hs
    simp only [variableToBytes, le32Bytes, bytesToVariable, List.length_cons,
      List.length_nil, List.headD, List.getD, readU32LE, List.get?_cons_zero,
      List.get?_cons_succ, Option.getD_some, if_pos]
    have harith : s % 256 + 256 * (s / 256 % 256) + 65536 * (s / 65536 % 256) +
        16777216 * (s / 16777216 % 256) = s := by omega
    rw [harith]
  · intro l hl
    simp [bytesToVariable, hl]

/-- Witness for C10 at address 3, size 77, and at the 2-byte slice
[1, 2]. -/
theorem c10_variable_codec_roundtrip_witness :
    bytesToVariable (variableToBytes ⟨3, 77⟩) = .ok ⟨3, 77⟩ ∧
    bytesToVariable [1, 2] = .error () :=
  ⟨c10_variable_codec_roundtrip.1 3 77 (by decide),
   c10_variable_codec_roundtrip.2 [1, 2] (by decide)⟩

/-- Claim C8: for every store state, reading or writing the reserved
addresses 0 and 255 is fatal: the reserved-address asserts fail before
the page store is consulted, so the result is a panic for every store,
well-formed or not, and no store is returned. -/
theorem c8_reserved_addresses_fatal (store : Store) (d : List Nat) :
    write_variable store 0 d = some (.error ()) ∧
    write_variable store 255 d = some (.error ()) ∧
    read_variable store 0 = some (.error ()) ∧
    read_variable store 255 = some (.error ()) := by
  refine ⟨?_, ?_, ?_, ?_⟩ <;>
    simp [write_variable, write_variable_aux, read_variable, ofail, obind]

/-- Claim C1 (code bug): the write/read round trip fails on the code.
On three fresh pages of 30 bytes, write_variable 1 [17,17,17,17] and
then write_variable 1 [34,34,34,34] both complete (second conjunct),
but a third write_variable 1 with a 16-byte payload, which fits in a
page (1 + 5 + 16 ≤ 30), panics inside the garbage collector (first
conjunct) because the copy loop never advances the source offset over
a live entry and overruns the destination page, so read_variable 1 can
never return the payload. -/
theorem c1_roundtrip_broken_by_gc_panic :
    (obind (write_variable [List.replicate 30 255, List.replicate 30 255,
        List.replicate 30 255] 1 [17, 17, 17, 17]) fun s1 =>
      obind (write_variable s1 1 [34, 34, 34, 34]) fun s2 =>
        write_variable s2 1 (List.replicate 16 51)) = some (.error ()) ∧
    (obind (write_variable [List.replicate 30 255, List.replicate 30 255,
        List.replicate 30 255] 1 [17, 17, 17, 17]) fun s1 =>
      obind (write_variable s1 1 [34, 34, 34, 34]) fun _ =>
        opure 0) = some (.ok 0) :=
  ⟨rfl, rfl⟩

/-- Claim C2 (code bug): a write that triggers garbage collection while
a distinct address holds live data is fatal, so the frame property
fails.  On three fresh pages of 30 bytes, after write_variable 2
[34,34,34,34], address 2 reads back its payload (first conjunct), but
write_variable 1 with a 16-byte payload then panics inside the garbage
collector while compacting the live entry of address 2 (second
conjunct): the call never completes, so no post-call state preserves
address 2. -/
theorem c2_frame_broken_by_gc_panic :
    (obind (write_variable [List.replicate 30 255, List.replicate 30 255,
        List.replicate 30 255] 2 [34, 34, 34, 34]) fun s1 =>
      read_variable s1 2) = some (.ok (some [34, 34, 34, 34])) ∧
    (obind (write_variable [List.replicate 30 255, List.replicate 30 255,
        List.replicate 30 255] 2 [34, 34, 34, 34]) fun s1 =>
      write_variable s1 1 (List.replicate 16 17)) = some (.error ()) :=
  ⟨rfl, rfl⟩

/-- Claim C3 (code bug): after an in-call garbage collection the scan
does not decode the entry at offset 1 of the new active page; it
continues the current iteration with the header decoded from the old
page before collection.  First conjunct: on an active page holding two
size-4 tombstones and 11 free bytes (page size 30), write_variable 1
with a 16-byte payload panics out-of-space: collection succeeds and
empties the page, but the loop keeps the stale tombstone header, skips
from offset 1 to offset 10 of the new page without decoding offset 1,
and the space check then fails with gc_run set.  Second conjunct: the
same write applied directly to the post-collection store (empty active
page 1) succeeds and reads back, showing the payload fits at offset 1
of the new page, which the claimed behaviour would have used. -/
theorem c3_post_gc_scan_uses_stale_header :
    write_variable [[1, 0, 4, 0, 0, 0, 17, 17, 17, 17, 0, 4, 0, 0, 0,
        34, 34, 34, 34] ++ List.replicate 11 255, List.replicate 30 255,
        List.replicate 30 255] 1 (List.replicate 16 17) = some (.error ()) ∧
    (obind (write_variable [List.replicate 30 255, (1 : Nat) :: List.replicate 29 255,
        List.replicate 30 255] 1 (List.replicate 16 17)) fun s =>
      read_variable s 1) = some (.ok (some (List.replicate 16 17))) :=
  ⟨rfl, rfl⟩

/-- Claim C4 (code bug): the garbage collector cannot compact any page
holding a live entry.  First conjunct: with an Erased destination and a
source page whose log is a single live entry (address 2, 4 payload
bytes, page size 20), run_garbage_collection panics: the copy loop
never advances the source offset in its live branch, recopies the same
entry, and overruns the destination page.  Second conjunct: with the
same entry tombstoned (address byte 0), collection completes, skipping
the tombstone and producing an empty compacted destination promoted to
Active, the previous page erased. -/
theorem c4_gc_copy_never_advances_source :
    run_garbage_collection [[1, 2, 4, 0, 0, 0, 34, 34, 34, 34] ++
        List.replicate 10 255, List.replicate 20 255, List.replicate 20 255] =
      some (.error ()) ∧
    run_garbage_collection [[1, 0, 4, 0, 0, 0, 34, 34, 34, 34] ++
        List.replicate 10 255, List.replicate 20 255, List.replicate 20 255] =
      some (.ok (1, [List.replicate 20 255, (1 : Nat) :: List.replicate 19 255,
        List.replicate 20 255])) :=
  ⟨rfl, rfl⟩

/-- Claim C6 (code bug): the read scan does not return absent at the
page end; it panics, because each iteration decodes the five-byte
header before any bounds check (the in-loop bounds check is dead code).
On three fresh pages of 20 bytes, write_variable 1 with a 14-byte
payload fills the active page exactly (offset 1 + 5 + 14 = 20), leaving
no decodable free-space sentinel; read_variable 2 then walks past the
entry to offset 20 and panics slicing page[20..25] (first conjunct),
instead of returning none at the page end.  read_variable 1 on the same
store still finds its entry (second conjunct), and reading a store with
no Active page returns absent (third conjunct). -/
theorem c6_read_past_page_end_panics :
    (obind (write_variable [List.replicate 20 255, List.replicate 20 255,
        List.replicate 20 255] 1 (List.replicate 14 17)) fun s =>
      read_variable s 2) = some (.error ()) ∧
    (obind (write_variable [List.replicate 20 255, List.replicate 20 255,
        List.replicate 20 255] 1 (List.replicate 14 17)) fun s =>
      read_variable s 1) = some (.ok (some (List.replicate 14 17))) ∧
    read_variable [List.replicate 20 255, List.replicate 20 255,
        List.replicate 20 255] 7 = some (.ok none) :=
  ⟨rfl, rfl, rfl⟩

lemma writeLoop_count_le (fuel : Nat) :
    ∀ (store : Store) (pIdx idx : Nat) (g : Bool) (cnt a : Nat) (d : List Nat)
      (s2 : Store) (c2 : Nat),
      writeLoop fuel store pIdx idx g cnt a d = some (.ok (s2, c2)) →
      c2 ≤ cnt + (if g then 0 else 1) := by
  induction fuel with
  | zero =>
    intro store pIdx idx g cnt a d s2 c2 h
    simp [writeLoop] at h
  | succ f ih =>
    intro store pIdx idx g cnt a d s2 c2 h
    unfold writeLoop at h
    obtain ⟨page, hpg, h⟩ := obind_ok_inv h
    obtain ⟨v, hv, h⟩ := obind_ok_inv h
    obtain ⟨st, hst, h⟩ := obind_ok_inv h
    obtain ⟨s1, p1, i1, g1, c1⟩ := st
    have hstep : (g1 = g ∧ c1 = cnt) ∨ (g = false ∧ g1 = true ∧ c1 = cnt + 1) := by
      by_cases hsp : page.length < idx + 5 + d.length
      · rw [if_pos hsp] at hst
        cases g with
        | true => simp [ofail] at hst
        | false =>
          simp only [Bool.false_eq_true, if_false] at hst
          obtain ⟨r, hr, hst⟩ := obind_ok_inv hst
          simp only [opure_def, Option.some.injEq, Except.ok.injEq,
            Prod.mk.injEq] at hst
          right
          exact ⟨rfl, hst.2.2.2.1.symm, hst.2.2.2.2.symm⟩
      · rw [if_neg hsp] at hst
        simp only [opure_def, Option.some.injEq, Except.ok.injEq,
          Prod.mk.injEq] at hst
        left
        exact ⟨hst.2.2.2.1.symm, hst.2.2.2.2.symm⟩
    obtain ⟨page1, hpg1, h⟩ := obind_ok_inv h
    by_cases haddr : v.address = 255
    · rw [if_pos haddr] at h
      obtain ⟨pa, hpa, h⟩ := obind_ok_inv h
      obtain ⟨pb, hpb, h⟩ := obind_ok_inv h
      obtain ⟨pc, hpc, h⟩ := obind_ok_inv h
      simp only [opure_def, Option.some.injEq, Except.ok.injEq,
        Prod.mk.injEq] at h
      have hc2 : c2 = c1 := h.2.symm
      rcases hstep with ⟨hg, hc⟩ | ⟨hg, hg1, hc⟩ <;> subst hg <;> simp <;> omega
    · rw [if_neg haddr] at h
      obtain ⟨b, hb, h⟩ := obind_ok_inv h
      by_cases hba : b = a
      · rw [if_pos hba] at h
        obtain ⟨pt, hpt, h⟩ := obind_ok_inv h
        have hrec := ih _ _ _ _ _ _ _ _ _ h
        rcases hstep with ⟨hg, hc⟩ | ⟨hg, hg1, hc⟩ <;>
          subst hg <;> subst hc <;> simp_all
      · rw [if_neg hba] at h
        have hrec := ih _ _ _ _ _ _ _ _ _ h
        rcases hstep with ⟨hg, hc⟩ | ⟨hg, hg1, hc⟩ <;>
          subst hg <;> subst hc <;> simp_all

/-- Claim C7: garbage collection is attempted at most once per
write_variable call (the ghost invocation counter of a completed call
is at most 1), and an iteration in which the entry header plus payload
still does not fit in the active page after a collection has already
run in this call is fatal. -/
theorem c7_gc_at_most_once_then_fatal :
    (∀ (store : Store) (a : Nat) (d : List Nat) (r : Store × Nat),
      write_variable_aux store a d = some (.ok r) → r.2 ≤ 1) ∧
    (∀ (f : Nat) (store : Store) (pIdx idx cnt a : Nat) (d : List Nat)
        (page : List Nat) (v : Variable),
      getPage store pIdx = .ok page →
      decodeAt page idx = .ok v →
      page.length < idx + 5 + d.length →
      writeLoop (f + 1) store pIdx idx true cnt a d = some (.error ())) := by
  constructor
  · intro store a d r h
    unfold write_variable_aux at h
    split at h
    · simp [ofail] at h
    · obtain ⟨m, hm, h⟩ := obind_ok_inv h
      obtain ⟨sa, hsa, h⟩ := obind_ok_inv h
      obtain ⟨s2, c2⟩ := r
      have hb := writeLoop_count_le (writeFuel sa.1) sa.1 sa.2 1 false 0 a d s2 c2 h
      simpa using hb
  · intro f store pIdx idx cnt a d page v hpg hdec hsp
    unfold writeLoop
    simp only [hpg, hdec, olift_def, obind_ok]
    rw [if_pos hsp]
    simp [ofail]

/-- Witness for C7: a completed fresh-store write has counter 0 ≤ 1,
and one loop iteration with gc_run already set and insufficient space
panics. -/
theorem c7_gc_at_most_once_then_fatal_witness :
    ((([[1, 1, 1, 0, 0, 0, 7, 255]] : Store), (0 : Nat)).2 ≤ 1) ∧
    writeLoop 1 [[1, 255, 255, 255, 255, 255, 255, 255]] 0 1 true 1 1
      (List.replicate 10 7) = some (.error ()) :=
  ⟨c7_gc_at_most_once_then_fatal.1 [List.replicate 8 255] 1 [7]
      ([[1, 1, 1, 0, 0, 0, 7, 255]], 0) rfl,
   c7_gc_at_most_once_then_fatal.2 0 [[1, 255, 255, 255, 255, 255, 255, 255]]
      0 1 1 1 (List.replicate 10 7) [1, 255, 255, 255, 255, 255, 255, 255]
      ⟨255, 4294967295⟩ rfl rfl (by decide)⟩

/-- Claim C9: when the first page whose header is not the erased
sentinel 255 has a header that is also not Active (1) — the GcRunning
header 0 included — active-page discovery panics, so read_variable,
write_variable and run_garbage_collection are all fatal on such a
store. -/
theorem c9_invalid_header_during_discovery_fatal (store : Store) (i : Nat)
    (p : List Nat) (hd a : Nat) (d : List Nat)
    (hp : store.get? i = some p) (hh : p.get? 0 = some hd)
    (h255 : hd ≠ 255) (h1 : hd ≠ 1)
    (hbefore : ∀ j, j < i → ∃ q, store.get? j = some q ∧ q.get? 0 = some 255)
    (ha0 : a ≠ 0) (ha255 : a ≠ 255) :
    read_variable store a = some (.error ()) ∧
    write_variable store a d = some (.error ()) ∧
    run_garbage_collection store = some (.error ()) := by
  have hfind : findActivePage store = .error () :=
    findActiveAux_invalid store 0 i p hd hp hh h255 h1 hbefore
  refine ⟨?_, ?_, ?_⟩
  · unfold read_variable
    rw [if_neg (by simp [ha0, ha255]), hfind]
    rfl
  · unfold write_variable write_variable_aux
    rw [if_neg (by simp [ha0, ha255]), hfind]
    rfl
  · unfold run_garbage_collection
    rw [hfind]
    rfl

/-- Witness for C9: a store whose first page carries the GcRunning
header 0 makes all three operations fatal. -/
theorem c9_invalid_header_during_discovery_fatal_witness :
    read_variable [[0, 255], [255, 255]] 7 = some (.error ()) ∧
    write_variable [[0, 255], [255, 255]] 7 [3] = some (.error ()) ∧
    run_garbage_collection [[0, 255], [255, 255]] = some (.error ()) :=
  c9_invalid_header_during_discovery_fatal [[0, 255], [255, 255]] 0 [0, 255]
    0 7 [3] rfl rfl (by decide) (by decide)
    (fun j hj => absurd hj (Nat.not_lt_zero j)) (by decide) (by decide)

/-- Claim C5: run_garbage_collection selects as destination the next
page index in round-robin order (active index + 1, wrapping to 0 at
the page count) and returns that index, and after a completed call the
page that was previously Active carries the Erased header 255 while
the destination page carries the Active header 1. -/
theorem c5_gc_wear_rotation (store : Store) (i j : Nat) (s2 : Store)
    (hfind : findActivePage store = .ok (some i))
    (hrun : run_garbage_collection store = some (.ok (j, s2))) :
    j = (if i + 1 = store.length then 0 else i + 1) ∧
    (∃ p, s2.get? i = some p ∧ p.get? 0 = some 255) ∧
    (∃ q, s2.get? j = some q ∧ q.get? 0 = some 1) := by
  have hi : i < store.length := findActivePage_lt hfind
  unfold run_garbage_collection at hrun
  rw [hfind] at hrun
  simp only [olift_def, obind_ok, resolveActive_some, opure_def] at hrun
  replace hrun : gcFinish store i = some (.ok (j, s2)) := hrun
  unfold gcFinish at hrun
  by_cases hik : i = nextPageIndex store.length i
  · rw [if_pos hik] at hrun
    simp [ofail] at hrun
  · rw [if_neg hik] at hrun
    simp only [opure_def, obind_ok] at hrun
    obtain ⟨activePage, hap, hrun⟩ := obind_ok_inv hrun
    replace hap : getPage store i = .ok activePage := by simpa using hap
    obtain ⟨nextPage, hnpg0, hrun⟩ := obind_ok_inv hrun
    obtain ⟨hdr, hhdr, hrun⟩ := obind_ok_inv hrun
    by_cases hhdr255 : hdr = 255
    · rw [if_pos hhdr255] at hrun
      simp only [opure_def, obind_ok] at hrun
      obtain ⟨ap1, hap1, hrun⟩ := obind_ok_inv hrun
      replace hap1 : setByte activePage 0 0 = .ok ap1 := by simpa using hap1
      obtain ⟨np1, hcopy, hrun⟩ := obind_ok_inv hrun
      obtain ⟨np, hnpg, hrun⟩ := obind_ok_inv hrun
      obtain ⟨npA, hnpA, hrun⟩ := obind_ok_inv hrun
      replace hnpA : setByte np 0 1 = .ok npA := by simpa using hnpA
      simp only [opure_def, Option.some.injEq, Except.ok.injEq,
        Prod.mk.injEq] at hrun
      obtain ⟨hj, hs⟩ := hrun
      subst hj
      subst hs
      have hik2 : nextPageIndex store.length i ≠ i := fun hx => hik hx.symm
      have hklt : nextPageIndex store.length i < store.length := by
        unfold nextPageIndex
        split <;> omega
      obtain ⟨hapos, hap1eq⟩ := setByte_ok hap1
      obtain ⟨hnpos, hnpAeq⟩ := setByte_ok hnpA
      refine ⟨rfl, ⟨erasePage ap1, ?_, ?_⟩, ⟨npA, ?_, ?_⟩⟩
      · rw [List.get?_set_ne _ _ hik2]
        exact List.get?_set_eq_of_lt _ (by simpa using hi)
      · unfold erasePage
        refine get?_replicate_255 ?_
        rw [hap1eq, List.length_set]
        exact hapos
      · exact List.get?_set_eq_of_lt _ (by simpa using hklt)
      · rw [hnpAeq]
        exact get?_set_head hnpos
    · rw [if_neg hhdr255] at hrun
      simp [ofail] at hrun

/-- Witness for C5: collecting a store whose page 0 is Active with an
empty log (page size 6, three pages) returns destination 1, erases
page 0 and promotes page 1 to Active. -/
theorem c5_gc_wear_rotation_witness :
    (1 : Nat) = (if 0 + 1 = ([[1, 255, 255, 255, 255, 255], List.replicate 6 255,
        List.replicate 6 255] : Store).length then 0 else 0 + 1) ∧
    (∃ p, ([List.replicate 6 255, (1 : Nat) :: List.replicate 5 255,
        List.replicate 6 255] : Store).get? 0 = some p ∧ p.get? 0 = some 255) ∧
    (∃ q, ([List.replicate 6 255, (1 : Nat) :: List.replicate 5 255,
        List.replicate 6 255] : Store).get? 1 = some q ∧ q.get? 0 = some 1) :=
  c5_gc_wear_rotation [[1, 255, 255, 255, 255, 255], List.replicate 6 255,
      List.replicate 6 255] 0 1
    [List.replicate 6 255, (1 : Nat) :: List.replicate 5 255, List.replicate 6 255]
    rfl rfl

end FlashEEPROM
